import Mathlib

/-!
Shallow embedding of `wayland-idle-helper.c`, a small Wayland client that
republishes compositor idle/resume notifications as lines on stdout.

The embedding models one process run as a pure function from the run's
external inputs (the optional command-line argument, whether the display
connection succeeds, the list of globals the registry advertises during the
initial roundtrip, and the idle/resume events delivered before
`wl_display_dispatch` returns -1) to the ordered trace of observable actions
(stdout lines, stderr lines, protocol-object binds/creates/destroys,
disconnect) together with the process exit code.
-/

/-! ## Command-line argument parsing (`atol` model)

`main` does: `uint32_t timeout_ms = 10000; if (argc > 1) { long val =
atol(argv[1]); if (val > 0) timeout_ms = (uint32_t)val; }`.

`atol` is modelled with glibc/strtol semantics: skip leading whitespace, an
optional sign, then a maximal run of decimal digits (no digits gives 0), the
mathematical value clamped to the 64-bit `long` range.  The cast
`(uint32_t)val` of a positive `long` reduces the value modulo 2^32. -/

def isSpaceC (c : Char) : Bool :=
  c.toNat = 32 || c.toNat = 9 || c.toNat = 10 || c.toNat = 11 ||
    c.toNat = 12 || c.toNat = 13

def isDigitC (c : Char) : Bool :=
  48 ≤ c.toNat && c.toNat ≤ 57

def digitVal (c : Char) : Nat := c.toNat - 48

/-- Consume a maximal run of leading decimal digits, accumulating the value. -/
def readDigits : List Char → Nat → Nat × List Char
  | [], acc => (acc, [])
  | c :: cs, acc =>
    if isDigitC c then readDigits cs (acc * 10 + digitVal c) else (acc, c :: cs)

def LONG_MAX : Int := 2 ^ 63 - 1
def LONG_MIN : Int := -(2 ^ 63)

def clampLong (v : Int) : Int := max LONG_MIN (min v LONG_MAX)

/-- Model of C `atol` (via `strtol` base 10): optional whitespace, optional
sign, maximal digit run, result clamped to the `long` range. -/
def atol (s : List Char) : Int :=
  match s.dropWhile isSpaceC with
  | [] => 0
  | c :: rest =>
    if c = '-' then clampLong (-((readDigits rest 0).1 : Int))
    else if c = '+' then clampLong ((readDigits rest 0).1 : Int)
    else clampLong ((readDigits (c :: rest) 0).1 : Int)

/-- The effective idle timeout in milliseconds computed by `main` from the
optional first command-line argument. -/
def effectiveTimeout (arg : Option (List Char)) : Nat :=
  match arg with
  | none => 10000
  | some s =>
    let val := atol s
    if 0 < val then val.toNat % 2 ^ 32 else 10000

/-! Specification-side description of "the argument is a valid base-10
integer with value `v`": an optional single sign followed by a nonempty
all-digit string, with its exact mathematical value (no clamping). -/

def digitsValue (l : List Char) : Nat :=
  l.foldl (fun a c => a * 10 + digitVal c) 0

/-- `numeralValue s = some v` iff `s` is exactly an optional sign followed by
one or more decimal digits denoting the integer `v`. -/
def numeralValue (s : List Char) : Option Int :=
  match s with
  | [] => none
  | c :: rest =>
    if c = '-' then
      if rest.isEmpty || !rest.all isDigitC then none
      else some (-(digitsValue rest : Int))
    else if c = '+' then
      if rest.isEmpty || !rest.all isDigitC then none
      else some ((digitsValue rest : Int))
    else
      if (c :: rest).all isDigitC then some ((digitsValue (c :: rest) : Int))
      else none

/-! ## Registry discovery

`registry_global` handles each advertised global during the roundtrip:
```
if (strcmp(interface, "wl_seat") == 0 && !seat) {
    seat = wl_registry_bind(registry, name, &wl_seat_interface, 1);
} else if (strcmp(interface, "ext_idle_notifier_v1") == 0) {
    notifier = wl_registry_bind(registry, name, &ext_idle_notifier_v1_interface, 1);
}
```
(`registry_global_remove` is an explicit no-op.) -/

structure Glob where
  iface : String
  name : Nat
deriving DecidableEq, Repr

/-- An observable action of the process: an output line, an error line, or a
protocol-object lifecycle step.  `destroySeat` is included so that the
absence of any `wl_seat` destroy call in the source is expressible; the code
never produces it. -/
inductive Act where
  | outLine (s : String)
  | errLine (s : String)
  | bindSeat (name : Nat)
  | bindNotifier (name : Nat)
  | createNotif (timeout : Nat) (seatName : Nat)
  | destroyNotif
  | destroyNotifier
  | destroySeat
  | disconnect
deriving DecidableEq, Repr

/-- The two file-scoped pointers `seat` and `notifier`, as the registry
listener sees them (each holds the `name` of the global it was bound from,
or `none` for NULL). -/
structure RegState where
  seat : Option Nat
  notifier : Option Nat
deriving DecidableEq, Repr

def registry_global (st : RegState) (g : Glob) : RegState × List Act :=
  if g.iface = "wl_seat" ∧ st.seat = none then
    ({ st with seat := some g.name }, [Act.bindSeat g.name])
  else if g.iface = "ext_idle_notifier_v1" then
    ({ st with notifier := some g.name }, [Act.bindNotifier g.name])
  else (st, [])

/-- `wl_display_roundtrip` delivers every advertised global to
`registry_global`, in order, before returning. -/
def roundtrip : List Glob → RegState → RegState × List Act
  | [], st => (st, [])
  | g :: rest, st =>
    ((roundtrip rest (registry_global st g).1).1,
     (registry_global st g).2 ++ (roundtrip rest (registry_global st g).1).2)

def seatAdv (gs : List Glob) : Bool := gs.any (fun g => g.iface == "wl_seat")

def notifAdv (gs : List Glob) : Bool :=
  gs.any (fun g => g.iface == "ext_idle_notifier_v1")

/-! ## Dispatch loop and the whole run -/

inductive IdleEvent where
  | idled
  | resumed
deriving DecidableEq, Repr

/-- `on_idled` prints `IDLE`, `on_resumed` prints `RESUMED` (each followed by
a newline and an `fflush(stdout)`). -/
def eventToken : IdleEvent → String
  | IdleEvent.idled => "IDLE"
  | IdleEvent.resumed => "RESUMED"

/-- The stdout lines produced while the dispatch loop runs: one line per
delivered event, in delivery order. -/
def dispatchActs (evs : List IdleEvent) : List Act :=
  evs.map (fun e => Act.outLine (eventToken e))

/-- The external inputs of one process run: the optional first command-line
argument, whether `wl_display_connect` succeeds, the globals advertised
during the registry roundtrip, and the idle/resume events delivered before
`wl_display_dispatch` reports failure (-1). -/
structure Input where
  arg : Option (List Char)
  connectOk : Bool
  globals : List Glob
  events : List IdleEvent

/-- The whole of `main`, as a trace of observable actions plus the exit
code. -/
def run (inp : Input) : List Act × Nat :=
  if inp.connectOk = false then
    ([Act.errLine "ERROR: Cannot connect to Wayland display"], 1)
  else
    let st := (roundtrip inp.globals ⟨none, none⟩).1
    let binds := (roundtrip inp.globals ⟨none, none⟩).2
    match st.seat with
    | none =>
      (binds ++ [Act.errLine "ERROR: No wl_seat found", Act.disconnect], 1)
    | some seatName =>
      match st.notifier with
      | none =>
        (binds ++ [Act.errLine "ERROR: ext_idle_notifier_v1 not supported",
          Act.disconnect], 1)
      | some _ =>
        (binds ++ Act.createNotif (effectiveTimeout inp.arg) seatName ::
          Act.outLine "READY" ::
          (dispatchActs inp.events ++
            [Act.destroyNotif, Act.destroyNotifier, Act.disconnect]), 0)

/-! ## Observation helpers -/

def outSel : Act → Option String
  | Act.outLine s => some s
  | _ => none

def errSel : Act → Option String
  | Act.errLine s => some s
  | _ => none

def stdoutLines (tr : List Act) : List String := tr.filterMap outSel

def stderrLines (tr : List Act) : List String := tr.filterMap errSel

def isBindSeat : Act → Bool
  | Act.bindSeat _ => true
  | _ => false

def isBindNotifier : Act → Bool
  | Act.bindNotifier _ => true
  | _ => false

def isBind (a : Act) : Bool := isBindSeat a || isBindNotifier a

def isCreate : Act → Bool
  | Act.createNotif _ _ => true
  | _ => false

def isDisconnect : Act → Bool
  | Act.disconnect => true
  | _ => false

def isDestroyNotif : Act → Bool
  | Act.destroyNotif => true
  | _ => false

def isDestroyNotifier : Act → Bool
  | Act.destroyNotifier => true
  | _ => false

def isDestroySeat : Act → Bool
  | Act.destroySeat => true
  | _ => false

/-- Last-wins fold describing which idle-notifier global the `notifier`
pointer ends up holding. -/
def lastNotifFrom (gs : List Glob) (acc : Option Nat) : Option Nat :=
  gs.foldl (fun a g => if g.iface = "ext_idle_notifier_v1" then some g.name else a) acc

example : effectiveTimeout (some "300".data) = 300 := by decide
example : effectiveTimeout (some "4294967296".data) = 0 := by decide
example : effectiveTimeout (some "abc".data) = 10000 := by decide
example : effectiveTimeout (some "-7".data) = 10000 := by decide
example : effectiveTimeout none = 10000 := by decide
example :
    stdoutLines (run ⟨none, true, [⟨"wl_seat", 1⟩, ⟨"ext_idle_notifier_v1", 2⟩],
      [IdleEvent.idled, IdleEvent.resumed]⟩).1 = ["READY", "IDLE", "RESUMED"] := by
  decide
example :
    (run ⟨none, true, [⟨"wl_seat", 1⟩, ⟨"ext_idle_notifier_v1", 2⟩], []⟩).2 = 0 := by
  decide
example :
    stderrLines (run ⟨none, true, [⟨"ext_idle_notifier_v1", 2⟩], []⟩).1 =
      ["ERROR: No wl_seat found"] := by decide

/-! ## Registry lemmas -/

lemma registry_global_seat (st : RegState) (g : Glob) :
    (registry_global st g).1.seat =
      if g.iface = "wl_seat" ∧ st.seat = none then some g.name else st.seat := by
  by_cases h1 : g.iface = "wl_seat" ∧ st.seat = none
  · simp [registry_global, h1]
  · by_cases h2 : g.iface = "ext_idle_notifier_v1" <;>
      simp [registry_global, h1, h2]

lemma registry_global_notifier (st : RegState) (g : Glob) :
    (registry_global st g).1.notifier =
      if g.iface = "ext_idle_notifier_v1" then some g.name else st.notifier := by
  by_cases h1 : g.iface = "wl_seat" ∧ st.seat = none
  · have h2 : ¬ g.iface = "ext_idle_notifier_v1" := by
      rw [h1.1]; decide
    simp [registry_global, h1, h2]
  · by_cases h2 : g.iface = "ext_idle_notifier_v1" <;>
      simp [registry_global, h1, h2]

lemma registry_global_acts (st : RegState) (g : Glob) :
    (registry_global st g).2 =
      if g.iface = "wl_seat" ∧ st.seat = none then [Act.bindSeat g.name]
      else if g.iface = "ext_idle_notifier_v1" then [Act.bindNotifier g.name]
      else [] := by
  by_cases h1 : g.iface = "wl_seat" ∧ st.seat = none
  · simp [registry_global, h1]
  · by_cases h2 : g.iface = "ext_idle_notifier_v1" <;>
      simp [registry_global, h1, h2]

lemma roundtrip_seat_some (gs : List Glob) (st : RegState) (n : Nat)
    (h : st.seat = some n) : (roundtrip gs st).1.seat = some n := by
  induction gs generalizing st with
  | nil => simpa [roundtrip]
  | cons g rest ih =>
    have h1 : (registry_global st g).1.seat = some n := by
      rw [registry_global_seat, if_neg (by simp [h]), h]
    simpa [roundtrip] using ih _ h1

lemma roundtrip_seat_none (gs : List Glob) (st : RegState) (h : st.seat = none) :
    (roundtrip gs st).1.seat =
      (gs.find? (fun g => g.iface == "wl_seat")).map Glob.name := by
  induction gs generalizing st with
  | nil => simp [roundtrip, h]
  | cons g rest ih =>
    by_cases hg : g.iface = "wl_seat"
    · have hs : (registry_global st g).1.seat = some g.name := by
        rw [registry_global_seat, if_pos ⟨hg, h⟩]
      have h2 := roundtrip_seat_some rest _ _ hs
      rw [List.find?_cons_of_pos _ (by simpa using hg)]
      simpa [roundtrip] using h2
    · have hs : (registry_global st g).1.seat = none := by
        rw [registry_global_seat, if_neg (by simp [hg]), h]
      rw [List.find?_cons_of_neg _ (by simpa using hg)]
      simpa [roundtrip] using ih _ hs

lemma lastNotifFrom_cons (g : Glob) (rest : List Glob) (acc : Option Nat) :
    lastNotifFrom (g :: rest) acc =
      lastNotifFrom rest
        (if g.iface = "ext_idle_notifier_v1" then some g.name else acc) := rfl

lemma roundtrip_notifier (gs : List Glob) (st : RegState) :
    (roundtrip gs st).1.notifier = lastNotifFrom gs st.notifier := by
  induction gs generalizing st with
  | nil => simp [roundtrip, lastNotifFrom]
  | cons g rest ih =>
    have h1 : (roundtrip (g :: rest) st).1.notifier =
        (roundtrip rest (registry_global st g).1).1.notifier := by
      simp [roundtrip]
    rw [h1, ih, registry_global_notifier, lastNotifFrom_cons]

lemma lastNotifFrom_isSome (gs : List Glob) (acc : Option Nat) :
    (lastNotifFrom gs acc).isSome = (acc.isSome || notifAdv gs) := by
  induction gs generalizing acc with
  | nil => simp [lastNotifFrom, notifAdv]
  | cons g rest ih =>
    rw [lastNotifFrom_cons, ih]
    by_cases hg : g.iface = "ext_idle_notifier_v1"
    · simp [notifAdv, hg, Bool.or_assoc]
    · have hne : (g.iface == "ext_idle_notifier_v1") = false := by simpa using hg
      simp [notifAdv, hg, hne]

lemma roundtrip_countP_notifier (gs : List Glob) (st : RegState) :
    (roundtrip gs st).2.countP isBindNotifier =
      gs.countP (fun g => g.iface == "ext_idle_notifier_v1") := by
  induction gs generalizing st with
  | nil => simp [roundtrip]
  | cons g rest ih =>
    have h0 : (roundtrip (g :: rest) st).2 =
        (registry_global st g).2 ++ (roundtrip rest (registry_global st g).1).2 := by
      simp [roundtrip]
    rw [h0, List.countP_append, ih, registry_global_acts, List.countP_cons]
    by_cases h1 : g.iface = "wl_seat" ∧ st.seat = none
    · have hne : (g.iface == "ext_idle_notifier_v1") = false := by
        rw [h1.1]; decide
      simp [h1, isBindNotifier, hne]
    · by_cases h2 : g.iface = "ext_idle_notifier_v1"
      · simp [h1, h2, isBindNotifier]
        omega
      · have hne : (g.iface == "ext_idle_notifier_v1") = false := by
          simpa using h2
        simp [h1, h2, hne]

lemma roundtrip_countP_seat_some (gs : List Glob) (st : RegState) (n : Nat)
    (h : st.seat = some n) : (roundtrip gs st).2.countP isBindSeat = 0 := by
  induction gs generalizing st with
  | nil => simp [roundtrip]
  | cons g rest ih =>
    have h0 : (roundtrip (g :: rest) st).2 =
        (registry_global st g).2 ++ (roundtrip rest (registry_global st g).1).2 := by
      simp [roundtrip]
    have h1 : ¬ (g.iface = "wl_seat" ∧ st.seat = none) := by simp [h]
    have hs : (registry_global st g).1.seat = some n := by
      rw [registry_global_seat, if_neg h1, h]
    rw [h0, List.countP_append, ih _ hs, registry_global_acts, if_neg h1]
    by_cases h2 : g.iface = "ext_idle_notifier_v1" <;>
      simp [h2, isBindSeat]

lemma roundtrip_countP_seat_none (gs : List Glob) (st : RegState)
    (h : st.seat = none) :
    (roundtrip gs st).2.countP isBindSeat = if seatAdv gs then 1 else 0 := by
  induction gs generalizing st with
  | nil => simp [roundtrip, seatAdv]
  | cons g rest ih =>
    have h0 : (roundtrip (g :: rest) st).2 =
        (registry_global st g).2 ++ (roundtrip rest (registry_global st g).1).2 := by
      simp [roundtrip]
    rw [h0, List.countP_append, registry_global_acts]
    by_cases hg : g.iface = "wl_seat"
    · have hs : (registry_global st g).1.seat = some g.name := by
        rw [registry_global_seat, if_pos ⟨hg, h⟩]
      rw [if_pos ⟨hg, h⟩, roundtrip_countP_seat_some rest _ _ hs]
      simp [seatAdv, hg, isBindSeat]
    · have hs : (registry_global st g).1.seat = none := by
        rw [registry_global_seat, if_neg (by simp [hg]), h]
      rw [if_neg (by simp [hg]), ih _ hs]
      have hne : (g.iface == "wl_seat") = false := by simpa using hg
      by_cases h2 : g.iface = "ext_idle_notifier_v1" <;>
        simp [h2, seatAdv, hne, isBindSeat]

lemma roundtrip_acts_bind (gs : List Glob) (st : RegState) :
    ∀ a ∈ (roundtrip gs st).2, isBind a = true := by
  induction gs generalizing st with
  | nil => simp [roundtrip]
  | cons g rest ih =>
    intro a ha
    have h0 : (roundtrip (g :: rest) st).2 =
        (registry_global st g).2 ++ (roundtrip rest (registry_global st g).1).2 := by
      simp [roundtrip]
    rw [h0, List.mem_append, registry_global_acts] at ha
    rcases ha with ha | ha
    · split at ha
      · simp only [List.mem_singleton] at ha
        subst ha; rfl
      · split at ha
        · simp only [List.mem_singleton] at ha
          subst ha; rfl
        · simp at ha
    · exact ih _ a ha

lemma bind_not_misc (a : Act) (h : isBind a = true) :
    outSel a = none ∧ errSel a = none ∧ isCreate a = false ∧
      isDisconnect a = false ∧ isDestroyNotif a = false ∧
      isDestroyNotifier a = false ∧ isDestroySeat a = false := by
  cases a <;> simp_all [isBind, isBindSeat, isBindNotifier, outSel, errSel,
    isCreate, isDisconnect, isDestroyNotif, isDestroyNotifier, isDestroySeat]

lemma roundtrip_countP_zero (p : Act → Bool)
    (hp : ∀ a, isBind a = true → p a = false) (gs : List Glob) (st : RegState) :
    (roundtrip gs st).2.countP p = 0 := by
  refine List.countP_eq_zero.mpr ?_
  intro a ha
  simp [hp a (roundtrip_acts_bind gs st a ha)]

lemma stdout_roundtrip (gs : List Glob) (st : RegState) :
    stdoutLines (roundtrip gs st).2 = [] := by
  refine List.filterMap_eq_nil_iff.mpr ?_
  intro a ha
  exact (bind_not_misc a (roundtrip_acts_bind gs st a ha)).1

lemma stderr_roundtrip (gs : List Glob) (st : RegState) :
    stderrLines (roundtrip gs st).2 = [] := by
  refine List.filterMap_eq_nil_iff.mpr ?_
  intro a ha
  exact (bind_not_misc a (roundtrip_acts_bind gs st a ha)).2.1

lemma stdout_dispatch (evs : List IdleEvent) :
    stdoutLines (dispatchActs evs) = evs.map eventToken := by
  induction evs with
  | nil => rfl
  | cons e rest ih =>
    simp only [dispatchActs, List.map_cons, stdoutLines, List.filterMap_cons]
    simp only [outSel]
    rw [← stdoutLines]
    simp [dispatchActs] at ih
    simp [ih]

lemma stderr_dispatch (evs : List IdleEvent) :
    stderrLines (dispatchActs evs) = [] := by
  refine List.filterMap_eq_nil_iff.mpr ?_
  intro a ha
  simp only [dispatchActs, List.mem_map] at ha
  obtain ⟨e, _, rfl⟩ := ha
  rfl

lemma dispatch_countP_zero (p : Act → Bool) (hp : ∀ s, p (Act.outLine s) = false)
    (evs : List IdleEvent) : (dispatchActs evs).countP p = 0 := by
  refine List.countP_eq_zero.mpr ?_
  intro a ha
  simp only [dispatchActs, List.mem_map] at ha
  obtain ⟨e, _, rfl⟩ := ha
  simp [hp]

/-! ## Run-path lemmas -/

lemma run_noconnect (inp : Input) (h : inp.connectOk = false) :
    run inp = ([Act.errLine "ERROR: Cannot connect to Wayland display"], 1) := by
  simp [run, h]

lemma run_noseat (inp : Input) (hc : inp.connectOk = true)
    (hs : (roundtrip inp.globals ⟨none, none⟩).1.seat = none) :
    run inp = ((roundtrip inp.globals ⟨none, none⟩).2 ++
      [Act.errLine "ERROR: No wl_seat found", Act.disconnect], 1) := by
  simp [run, hc, hs]

lemma run_nonotif (inp : Input) (sn : Nat) (hc : inp.connectOk = true)
    (hs : (roundtrip inp.globals ⟨none, none⟩).1.seat = some sn)
    (hn : (roundtrip inp.globals ⟨none, none⟩).1.notifier = none) :
    run inp = ((roundtrip inp.globals ⟨none, none⟩).2 ++
      [Act.errLine "ERROR: ext_idle_notifier_v1 not supported",
        Act.disconnect], 1) := by
  simp [run, hc, hs, hn]

lemma run_success (inp : Input) (sn nn : Nat) (hc : inp.connectOk = true)
    (hs : (roundtrip inp.globals ⟨none, none⟩).1.seat = some sn)
    (hn : (roundtrip inp.globals ⟨none, none⟩).1.notifier = some nn) :
    run inp = ((roundtrip inp.globals ⟨none, none⟩).2 ++
      Act.createNotif (effectiveTimeout inp.arg) sn ::
      Act.outLine "READY" ::
      (dispatchActs inp.events ++
        [Act.destroyNotif, Act.destroyNotifier, Act.disconnect]), 0) := by
  simp [run, hc, hs, hn]

lemma seat_none_iff (gs : List Glob) :
    (roundtrip gs ⟨none, none⟩).1.seat = none ↔ seatAdv gs = false := by
  rw [roundtrip_seat_none gs _ rfl]
  simp only [Option.map_eq_none', List.find?_eq_none, seatAdv, List.any_eq_false]

lemma notifier_none_iff (gs : List Glob) :
    (roundtrip gs ⟨none, none⟩).1.notifier = none ↔ notifAdv gs = false := by
  rw [roundtrip_notifier]
  have h2 := lastNotifFrom_isSome gs none
  constructor
  · intro h
    rw [h] at h2
    simpa using h2.symm
  · intro h
    rw [h] at h2
    simpa using h2

/-! ## Numeral parsing lemmas -/

lemma digit_not_space (c : Char) (h : isDigitC c = true) : isSpaceC c = false := by
  simp only [isDigitC, Bool.and_eq_true, decide_eq_true_eq] at h
  simp only [isSpaceC, Bool.or_eq_false_iff, decide_eq_false_iff_not]
  omega

lemma readDigits_all_digits (l : List Char) (acc : Nat)
    (h : ∀ c ∈ l, isDigitC c = true) :
    readDigits l acc = (l.foldl (fun a c => a * 10 + digitVal c) acc, []) := by
  induction l generalizing acc with
  | nil => simp [readDigits]
  | cons c cs ih =>
    have hc := h c (List.mem_cons_self c cs)
    simp only [readDigits, hc, if_true, List.foldl_cons]
    exact ih _ (fun d hd => h d (List.mem_cons_of_mem c hd))

lemma atol_minus (rest : List Char) (hall : ∀ d ∈ rest, isDigitC d = true) :
    atol ('-' :: rest) = clampLong (-(digitsValue rest : Int)) := by
  have hdrop : ('-' :: rest).dropWhile isSpaceC = '-' :: rest := by
    rw [List.dropWhile_cons]
    simp [show isSpaceC '-' = false from by decide]
  simp [atol, hdrop, readDigits_all_digits rest 0 hall, digitsValue]

lemma atol_plus (rest : List Char) (hall : ∀ d ∈ rest, isDigitC d = true) :
    atol ('+' :: rest) = clampLong ((digitsValue rest : Int)) := by
  have hdrop : ('+' :: rest).dropWhile isSpaceC = '+' :: rest := by
    rw [List.dropWhile_cons]
    simp [show isSpaceC '+' = false from by decide]
  simp [atol, hdrop, readDigits_all_digits rest 0 hall, digitsValue]

lemma atol_digits (c : Char) (rest : List Char)
    (hall : ∀ d ∈ c :: rest, isDigitC d = true) :
    atol (c :: rest) = clampLong ((digitsValue (c :: rest) : Int)) := by
  have hcd := hall c (List.mem_cons_self c rest)
  have hm : ¬ c = '-' := by
    intro hx
    rw [hx] at hcd
    exact absurd hcd (by decide)
  have hp : ¬ c = '+' := by
    intro hx
    rw [hx] at hcd
    exact absurd hcd (by decide)
  have hdrop : (c :: rest).dropWhile isSpaceC = c :: rest := by
    rw [List.dropWhile_cons]
    simp [digit_not_space c hcd]
  simp [atol, hdrop, hm, hp, readDigits_all_digits _ 0 hall, digitsValue]

lemma atol_numeral (s : List Char) (v : Int) (h : numeralValue s = some v) :
    atol s = clampLong v := by
  cases s with
  | nil => simp [numeralValue] at h
  | cons c rest =>
    simp only [numeralValue] at h
    split_ifs at h with h1 h2 h3 h4 h5
    · subst h1
      have hall : ∀ d ∈ rest, isDigitC d = true := by
        cases hb : rest.all isDigitC with
        | false =>
          exact absurd (show (rest.isEmpty || !rest.all isDigitC) = true by
            rw [hb]; simp) h2
        | true => simpa only [List.all_eq_true] using hb
      rw [atol_minus rest hall]
      congr 1
      exact Option.some_inj.mp h
    · subst h3
      have hall : ∀ d ∈ rest, isDigitC d = true := by
        cases hb : rest.all isDigitC with
        | false =>
          exact absurd (show (rest.isEmpty || !rest.all isDigitC) = true by
            rw [hb]; simp) h4
        | true => simpa only [List.all_eq_true] using hb
      rw [atol_plus rest hall]
      congr 1
      exact Option.some_inj.mp h
    · have hall : ∀ d ∈ c :: rest, isDigitC d = true := by
        simpa only [List.all_eq_true] using h5
      rw [atol_digits c rest hall]
      congr 1
      exact Option.some_inj.mp h


lemma clampLong_of_bounds (v : Int) (h1 : LONG_MIN ≤ v) (h2 : v ≤ LONG_MAX) :
    clampLong v = v := by
  rw [clampLong, min_eq_left h2, max_eq_right h1]

lemma atol_no_digits (s : List Char) (h : ∀ c ∈ s, isDigitC c = false) :
    atol s = 0 := by
  have hsub : ∀ c ∈ s.dropWhile isSpaceC, isDigitC c = false := by
    intro c hc
    exact h c ((List.dropWhile_sublist (p := isSpaceC) (l := s)).subset hc)
  rcases hd : s.dropWhile isSpaceC with _ | ⟨c, rest⟩
  · simp [atol, hd]
  · rw [hd] at hsub
    have hrest0 : (readDigits rest 0).1 = 0 := by
      cases rest with
      | nil => rfl
      | cons d ds =>
        have : isDigitC d = false :=
          hsub d (List.mem_cons_of_mem c (List.mem_cons_self d ds))
        simp [readDigits, this]
    have hcrest0 : (readDigits (c :: rest) 0).1 = 0 := by
      have : isDigitC c = false := hsub c (List.mem_cons_self c rest)
      simp [readDigits, this]
    simp only [atol, hd]
    by_cases hm : c = '-'
    · rw [if_pos hm, hrest0]
      decide
    · by_cases hp : c = '+'
      · rw [if_neg hm, if_pos hp, hrest0]
        decide
      · rw [if_neg hm, if_neg hp, hcrest0]
        decide

/-! Lemmas about `atol` on arguments that begin with a well-formed numeral
and continue with non-digit characters: `strtol` stops at the first
non-digit, so the leading digit run alone decides the value. -/

lemma readDigits_append_stop (l r : List Char) (acc : Nat)
    (hl : ∀ c ∈ l, isDigitC c = true)
    (hr : ∀ c ∈ r.take 1, isDigitC c = false) :
    (readDigits (l ++ r) acc).1 =
      l.foldl (fun a c => a * 10 + digitVal c) acc := by
  induction l generalizing acc with
  | nil =>
    cases r with
    | nil => simp [readDigits]
    | cons c rest2 =>
      have hc : isDigitC c = false := hr c (by simp)
      simp [readDigits, hc]
  | cons c cs ih =>
    have hc := hl c (List.mem_cons_self c cs)
    simp only [List.cons_append, readDigits, hc, if_true, List.foldl_cons]
    exact ih _ (fun d hd => hl d (List.mem_cons_of_mem c hd))

lemma atol_minus_tail (rest r : List Char)
    (hall : ∀ d ∈ rest, isDigitC d = true)
    (hr : ∀ c ∈ r.take 1, isDigitC c = false) :
    atol ('-' :: (rest ++ r)) = clampLong (-(digitsValue rest : Int)) := by
  have hdrop : ('-' :: (rest ++ r)).dropWhile isSpaceC = '-' :: (rest ++ r) := by
    rw [List.dropWhile_cons]
    simp [show isSpaceC '-' = false from by decide]
  simp [atol, hdrop, readDigits_append_stop rest r 0 hall hr, digitsValue]

lemma atol_plus_tail (rest r : List Char)
    (hall : ∀ d ∈ rest, isDigitC d = true)
    (hr : ∀ c ∈ r.take 1, isDigitC c = false) :
    atol ('+' :: (rest ++ r)) = clampLong ((digitsValue rest : Int)) := by
  have hdrop : ('+' :: (rest ++ r)).dropWhile isSpaceC = '+' :: (rest ++ r) := by
    rw [List.dropWhile_cons]
    simp [show isSpaceC '+' = false from by decide]
  simp [atol, hdrop, readDigits_append_stop rest r 0 hall hr, digitsValue]

lemma atol_digits_tail (c : Char) (rest r : List Char)
    (hall : ∀ d ∈ c :: rest, isDigitC d = true)
    (hr : ∀ x ∈ r.take 1, isDigitC x = false) :
    atol (c :: (rest ++ r)) = clampLong ((digitsValue (c :: rest) : Int)) := by
  have hcd := hall c (List.mem_cons_self c rest)
  have hm : ¬ c = '-' := by
    intro hx
    rw [hx] at hcd
    exact absurd hcd (by decide)
  have hp : ¬ c = '+' := by
    intro hx
    rw [hx] at hcd
    exact absurd hcd (by decide)
  have hdrop : (c :: (rest ++ r)).dropWhile isSpaceC = c :: (rest ++ r) := by
    rw [List.dropWhile_cons]
    simp [digit_not_space c hcd]
  have hval : (readDigits (c :: (rest ++ r)) 0).1 = digitsValue (c :: rest) := by
    have h2 := readDigits_append_stop (c :: rest) r 0 hall hr
    simpa [List.cons_append, digitsValue] using h2
  simp [atol, hdrop, hm, hp, hval]

lemma atol_numeral_leading (p r : List Char) (v : Int)
    (h : numeralValue p = some v)
    (hr : ∀ c ∈ r.take 1, isDigitC c = false) :
    atol (p ++ r) = clampLong v := by
  cases p with
  | nil => simp [numeralValue] at h
  | cons c rest =>
    rw [List.cons_append]
    simp only [numeralValue] at h
    split_ifs at h with h1 h2 h3 h4 h5
    · subst h1
      have hall : ∀ d ∈ rest, isDigitC d = true := by
        cases hb : rest.all isDigitC with
        | false =>
          exact absurd (show (rest.isEmpty || !rest.all isDigitC) = true by
            rw [hb]; simp) h2
        | true => simpa only [List.all_eq_true] using hb
      rw [atol_minus_tail rest r hall hr]
      congr 1
      exact Option.some_inj.mp h
    · subst h3
      have hall : ∀ d ∈ rest, isDigitC d = true := by
        cases hb : rest.all isDigitC with
        | false =>
          exact absurd (show (rest.isEmpty || !rest.all isDigitC) = true by
            rw [hb]; simp) h4
        | true => simpa only [List.all_eq_true] using hb
      rw [atol_plus_tail rest r hall hr]
      congr 1
      exact Option.some_inj.mp h
    · have hall : ∀ d ∈ c :: rest, isDigitC d = true := by
        simpa only [List.all_eq_true] using h5
      rw [atol_digits_tail c rest r hall hr]
      congr 1
      exact Option.some_inj.mp h

lemma effTimeout_of_atol_clamp (s : List Char) (v : Int)
    (ha : atol s = clampLong v) :
    (0 < v → v < 2 ^ 32 → effectiveTimeout (some s) = v.toNat)
    ∧ (v ≤ 0 → effectiveTimeout (some s) = 10000) := by
  constructor
  · intro h1 h2
    have hc : clampLong v = v :=
      clampLong_of_bounds v (by rw [LONG_MIN]; omega) (by rw [LONG_MAX]; omega)
    simp only [effectiveTimeout, ha, hc]
    rw [if_pos h1]
    omega
  · intro h1
    have hc : clampLong v ≤ 0 := by
      simp only [clampLong, LONG_MIN, LONG_MAX]
      omega
    simp only [effectiveTimeout, ha]
    rw [if_neg (by omega)]

/-! ## Claim C4 and C10: the effective timeout -/

/-- C4 (amended): for every command-line argument that is a valid positive
integer below 2^32 the effective timeout equals the parsed value; for every
zero or negative integer argument, every argument containing no decimal
digit, and an absent argument, the effective timeout equals 10000.  For a
malformed argument that begins with an (optionally signed) digit run and
continues with a non-digit, the leading digit run alone decides: a positive
leading value below 2^32 becomes the timeout (`12abc` gives 12, not the
default), a zero or negative leading value gives 10000.  (As stated
originally the claim fails twice: positive values ≥ 2^32 wrap modulo 2^32,
and malformed digit-led arguments are not silently defaulted; see the
counterexample.) -/
theorem c4_timeout_default (s : List Char) (v : Int) :
    (numeralValue s = some v → 0 < v → v < 2 ^ 32 →
      effectiveTimeout (some s) = v.toNat)
    ∧ (numeralValue s = some v → v ≤ 0 → effectiveTimeout (some s) = 10000)
    ∧ ((∀ c ∈ s, isDigitC c = false) → effectiveTimeout (some s) = 10000)
    ∧ effectiveTimeout none = 10000
    ∧ (∀ p r, s = p ++ r → numeralValue p = some v →
        (∀ c ∈ r.take 1, isDigitC c = false) →
        (0 < v → v < 2 ^ 32 → effectiveTimeout (some s) = v.toNat)
        ∧ (v ≤ 0 → effectiveTimeout (some s) = 10000)) := by
  refine ⟨?_, ?_, ?_, rfl, ?_⟩
  · intro h h1 h2
    exact (effTimeout_of_atol_clamp s v (atol_numeral s v h)).1 h1 h2
  · intro h h1
    exact (effTimeout_of_atol_clamp s v (atol_numeral s v h)).2 h1
  · intro h
    have ha : atol s = 0 := atol_no_digits s h
    simp only [effectiveTimeout, ha]
    rw [if_neg (by omega)]
  · intro p r hs h hr
    subst hs
    exact effTimeout_of_atol_clamp (p ++ r) v (atol_numeral_leading p r v h hr)

/-- Witness for C4: the argument `300` yields an effective timeout of 300,
and the malformed argument `12abc` yields 12 via the prefix clause. -/
theorem c4_timeout_default_witness :
    numeralValue ("300".data) = some 300 ∧
      effectiveTimeout (some ("300".data)) = 300 ∧
      "12abc".data = ['1', '2'] ++ ['a', 'b', 'c'] ∧
      effectiveTimeout (some ("12abc".data)) = 12 :=
  ⟨by decide,
   (c4_timeout_default ("300".data) 300).1 (by decide) (by decide) (by decide),
   by decide,
   ((c4_timeout_default ("12abc".data) 12).2.2.2.2 ['1', '2'] ['a', 'b', 'c']
      (by decide) (by decide) (by decide)).1 (by decide) (by decide)⟩

/-- Counterexample to C4 as stated, at two concrete inputs: `4294967296` is
a valid positive integer argument yet the effective timeout is 0, not the
parsed value (the `(uint32_t)` cast wraps modulo 2^32); and the malformed
argument `12abc` is not a valid integer yet yields 12, not the default
10000 (atol takes the leading digit run). -/
theorem c4_timeout_default_counterexample :
    (numeralValue ("4294967296".data) = some 4294967296 ∧
      effectiveTimeout (some ("4294967296".data)) = 0 ∧
      (0 : Nat) ≠ 4294967296) ∧
    (numeralValue ("12abc".data) = none ∧
      effectiveTimeout (some ("12abc".data)) = 12 ∧
      (12 : Nat) ≠ 10000) := by decide

/-- C10: for every command-line argument that parses to a positive value
greater than 2^32 - 1 (within the range `atol` can return, i.e. up to
`LONG_MAX`), the effective timeout is that value reduced modulo 2^32. -/
theorem c10_timeout_mod_wrap (s : List Char) (v : Int)
    (h : numeralValue s = some v) (h1 : (2 ^ 32 - 1 : Int) < v)
    (h2 : v ≤ LONG_MAX) :
    effectiveTimeout (some s) = (v % 2 ^ 32).toNat := by
  have ha : atol s = clampLong v := atol_numeral s v h
  have hc : clampLong v = v :=
    clampLong_of_bounds v (by rw [LONG_MIN]; omega) h2
  simp only [effectiveTimeout, ha, hc]
  rw [if_pos (by omega)]
  omega

/-- Witness for C10: the argument `4294967296` (= 2^32) yields an effective
timeout of 0 rather than the default 10000. -/
theorem c10_timeout_mod_wrap_witness :
    numeralValue ("4294967296".data) = some 4294967296 ∧
      effectiveTimeout (some ("4294967296".data)) = 0 := by
  refine ⟨by decide, ?_⟩
  have h := c10_timeout_mod_wrap ("4294967296".data) 4294967296 (by decide)
    (by decide) (by decide)
  exact h.trans (by decide)

/-! ## Stdout/stderr path lemmas -/

lemma stdoutLines_append (l1 l2 : List Act) :
    stdoutLines (l1 ++ l2) = stdoutLines l1 ++ stdoutLines l2 := by
  simp [stdoutLines]

lemma stdoutLines_cons_out (s : String) (l : List Act) :
    stdoutLines (Act.outLine s :: l) = s :: stdoutLines l := rfl

lemma stdoutLines_cons_none (a : Act) (l : List Act) (h : outSel a = none) :
    stdoutLines (a :: l) = stdoutLines l := by
  simp [stdoutLines, List.filterMap_cons, h]

lemma stderrLines_append (l1 l2 : List Act) :
    stderrLines (l1 ++ l2) = stderrLines l1 ++ stderrLines l2 := by
  simp [stderrLines]

lemma ready_not_event (evs : List IdleEvent) :
    "READY" ∉ evs.map eventToken := by
  intro h
  rcases List.mem_map.mp h with ⟨e, _, he⟩
  cases e <;> simp [eventToken] at he

lemma createNotif_not_roundtrip (gs : List Glob) (st : RegState) (t sn : Nat) :
    Act.createNotif t sn ∉ (roundtrip gs st).2 := by
  intro hmem
  have hb := roundtrip_acts_bind gs st _ hmem
  simp [isBind, isBindSeat, isBindNotifier] at hb

lemma seat_some_of_adv (gs : List Glob) (hs : seatAdv gs = true) :
    ∃ sn, (roundtrip gs ⟨none, none⟩).1.seat = some sn := by
  rcases h : (roundtrip gs ⟨none, none⟩).1.seat with _ | sn
  · rw [(seat_none_iff gs).mp h] at hs
    exact absurd hs (by simp)
  · exact ⟨sn, rfl⟩

lemma notif_some_of_adv (gs : List Glob) (hn : notifAdv gs = true) :
    ∃ nn, (roundtrip gs ⟨none, none⟩).1.notifier = some nn := by
  rcases h : (roundtrip gs ⟨none, none⟩).1.notifier with _ | nn
  · rw [(notifier_none_iff gs).mp h] at hn
    exact absurd hn (by simp)
  · exact ⟨nn, rfl⟩

lemma stdout_run_success (inp : Input) (sn nn : Nat) (hc : inp.connectOk = true)
    (hs : (roundtrip inp.globals ⟨none, none⟩).1.seat = some sn)
    (hn : (roundtrip inp.globals ⟨none, none⟩).1.notifier = some nn) :
    stdoutLines (run inp).1 = "READY" :: inp.events.map eventToken := by
  rw [run_success inp sn nn hc hs hn]
  rw [show ((roundtrip inp.globals ⟨none, none⟩).2 ++
      Act.createNotif (effectiveTimeout inp.arg) sn ::
      Act.outLine "READY" ::
      (dispatchActs inp.events ++
        [Act.destroyNotif, Act.destroyNotifier, Act.disconnect]),
      (0 : Nat)).1 =
    (roundtrip inp.globals ⟨none, none⟩).2 ++
      Act.createNotif (effectiveTimeout inp.arg) sn ::
      Act.outLine "READY" ::
      (dispatchActs inp.events ++
        [Act.destroyNotif, Act.destroyNotifier, Act.disconnect]) from rfl]
  rw [stdoutLines_append, stdout_roundtrip,
    stdoutLines_cons_none (Act.createNotif (effectiveTimeout inp.arg) sn) _ rfl,
    stdoutLines_cons_out, stdoutLines_append, stdout_dispatch,
    show stdoutLines [Act.destroyNotif, Act.destroyNotifier, Act.disconnect] = []
      from rfl]
  simp

/-! ## Claim C1: the READY token -/

/-- C1: `READY` is written to stdout iff the connection, both capability
binds and the idle-notification subscription succeeded; the full stdout
stream is then `READY` followed by the event tokens, so `READY` is emitted
exactly once, before the dispatch loop's output, and never after an `IDLE`
or `RESUMED` token (conjunct three: any decomposition of stdout around a
`READY` line has nothing before it and no further `READY` after it). -/
theorem c1_ready_iff_setup (inp : Input) :
    (stdoutLines (run inp).1 =
      if inp.connectOk = true ∧ seatAdv inp.globals = true ∧
          notifAdv inp.globals = true
      then "READY" :: inp.events.map eventToken else [])
    ∧ ((∃ t sn, Act.createNotif t sn ∈ (run inp).1) ↔
        (inp.connectOk = true ∧ seatAdv inp.globals = true ∧
          notifAdv inp.globals = true))
    ∧ (∀ l1 l2, stdoutLines (run inp).1 = l1 ++ "READY" :: l2 →
        l1 = [] ∧ "READY" ∉ l2) := by
  cases hc : inp.connectOk with
  | false =>
    have h0 : stdoutLines (run inp).1 = [] := by
      rw [run_noconnect inp hc]
      rfl
    refine ⟨?_, ?_, ?_⟩
    · rw [h0, if_neg (by simp [hc])]
    · rw [run_noconnect inp hc]
      constructor
      · rintro ⟨t, sn, hmem⟩
        simp at hmem
      · rintro ⟨hct, _, _⟩
        exact absurd hct (by simp)
    · intro l1 l2 hl
      rw [h0] at hl
      exact absurd hl.symm (by simp)
  | true =>
    rcases hseat : (roundtrip inp.globals ⟨none, none⟩).1.seat with _ | sn
    · have hsf : seatAdv inp.globals = false := (seat_none_iff _).mp hseat
      have h0 : stdoutLines (run inp).1 = [] := by
        rw [run_noseat inp hc hseat]
        rw [show ((roundtrip inp.globals ⟨none, none⟩).2 ++
            [Act.errLine "ERROR: No wl_seat found", Act.disconnect],
            (1 : Nat)).1 = (roundtrip inp.globals ⟨none, none⟩).2 ++
            [Act.errLine "ERROR: No wl_seat found", Act.disconnect] from rfl]
        rw [stdoutLines_append, stdout_roundtrip]
        rfl
      refine ⟨?_, ?_, ?_⟩
      · rw [h0, if_neg (by simp [hsf])]
      · rw [run_noseat inp hc hseat]
        constructor
        · rintro ⟨t, sn2, hmem⟩
          rw [show ((roundtrip inp.globals ⟨none, none⟩).2 ++
              [Act.errLine "ERROR: No wl_seat found", Act.disconnect],
              (1 : Nat)).1 = (roundtrip inp.globals ⟨none, none⟩).2 ++
              [Act.errLine "ERROR: No wl_seat found", Act.disconnect] from rfl,
            List.mem_append] at hmem
          rcases hmem with hmem | hmem
          · exact absurd hmem (createNotif_not_roundtrip _ _ _ _)
          · simp at hmem
        · rintro ⟨_, hs2, _⟩
          rw [hsf] at hs2
          exact absurd hs2 (by simp)
      · intro l1 l2 hl
        rw [h0] at hl
        exact absurd hl.symm (by simp)
    · rcases hnot : (roundtrip inp.globals ⟨none, none⟩).1.notifier with _ | nn
      · have hnf : notifAdv inp.globals = false := (notifier_none_iff _).mp hnot
        have h0 : stdoutLines (run inp).1 = [] := by
          rw [run_nonotif inp sn hc hseat hnot]
          rw [show ((roundtrip inp.globals ⟨none, none⟩).2 ++
              [Act.errLine "ERROR: ext_idle_notifier_v1 not supported",
                Act.disconnect],
              (1 : Nat)).1 = (roundtrip inp.globals ⟨none, none⟩).2 ++
              [Act.errLine "ERROR: ext_idle_notifier_v1 not supported",
                Act.disconnect] from rfl]
          rw [stdoutLines_append, stdout_roundtrip]
          rfl
        refine ⟨?_, ?_, ?_⟩
        · rw [h0, if_neg (by simp [hnf])]
        · rw [run_nonotif inp sn hc hseat hnot]
          constructor
          · rintro ⟨t, sn2, hmem⟩
            rw [show ((roundtrip inp.globals ⟨none, none⟩).2 ++
                [Act.errLine "ERROR: ext_idle_notifier_v1 not supported",
                  Act.disconnect],
                (1 : Nat)).1 = (roundtrip inp.globals ⟨none, none⟩).2 ++
                [Act.errLine "ERROR: ext_idle_notifier_v1 not supported",
                  Act.disconnect] from rfl,
              List.mem_append] at hmem
            rcases hmem with hmem | hmem
            · exact absurd hmem (createNotif_not_roundtrip _ _ _ _)
            · simp at hmem
          · rintro ⟨_, _, hn2⟩
            rw [hnf] at hn2
            exact absurd hn2 (by simp)
        · intro l1 l2 hl
          rw [h0] at hl
          exact absurd hl.symm (by simp)
      · have hst : seatAdv inp.globals = true := by
          cases hb : seatAdv inp.globals with
          | false =>
            have h2 := (seat_none_iff inp.globals).mpr hb
            rw [hseat] at h2
            exact absurd h2 (by simp)
          | true => rfl
        have hnt : notifAdv inp.globals = true := by
          cases hb : notifAdv inp.globals with
          | false =>
            have h2 := (notifier_none_iff inp.globals).mpr hb
            rw [hnot] at h2
            exact absurd h2 (by simp)
          | true => rfl
        have h0 := stdout_run_success inp sn nn hc hseat hnot
        refine ⟨?_, ?_, ?_⟩
        · rw [h0, if_pos ⟨rfl, hst, hnt⟩]
        · constructor
          · intro _
            exact ⟨rfl, hst, hnt⟩
          · intro _
            refine ⟨effectiveTimeout inp.arg, sn, ?_⟩
            rw [run_success inp sn nn hc hseat hnot]
            rw [show ((roundtrip inp.globals ⟨none, none⟩).2 ++
                Act.createNotif (effectiveTimeout inp.arg) sn ::
                Act.outLine "READY" ::
                (dispatchActs inp.events ++
                  [Act.destroyNotif, Act.destroyNotifier, Act.disconnect]),
                (0 : Nat)).1 = (roundtrip inp.globals ⟨none, none⟩).2 ++
                Act.createNotif (effectiveTimeout inp.arg) sn ::
                Act.outLine "READY" ::
                (dispatchActs inp.events ++
                  [Act.destroyNotif, Act.destroyNotifier, Act.disconnect])
              from rfl]
            exact List.mem_append_right _ (List.mem_cons_self _ _)
        · intro l1 l2 hl
          rw [h0] at hl
          cases l1 with
          | nil =>
            simp only [List.nil_append] at hl
            injection hl with h1 h2
            refine ⟨rfl, ?_⟩
            rw [← h2]
            exact ready_not_event _
          | cons a t =>
            simp only [List.cons_append] at hl
            injection hl with h1 h2
            have hmem : "READY" ∈ inp.events.map eventToken := by
              rw [h2]
              exact List.mem_append_right _ (List.mem_cons_self _ _)
            exact absurd hmem (ready_not_event _)

/-- Witness for C1: in a successful run with one idle event, stdout is
exactly `READY` then `IDLE`, and the decomposition facts hold. -/
theorem c1_ready_iff_setup_witness :
    stdoutLines (run ⟨none, true, [⟨"wl_seat", 1⟩, ⟨"ext_idle_notifier_v1", 2⟩],
        [IdleEvent.idled]⟩).1 = [] ++ "READY" :: ["IDLE"] ∧
      (([] : List String) = [] ∧ "READY" ∉ (["IDLE"] : List String)) :=
  ⟨by decide, (c1_ready_iff_setup ⟨none, true,
    [⟨"wl_seat", 1⟩, ⟨"ext_idle_notifier_v1", 2⟩], [IdleEvent.idled]⟩).2.2
    [] ["IDLE"] (by decide)⟩

/-! ## Claim C2: the IDLE/RESUMED stream mirrors the delivered events -/

/-- C2: in every run that reaches the dispatch loop, the `IDLE`/`RESUMED`
lines on stdout are exactly the delivered idle/resume events, in order, one
line per event — no drops, duplicates, or reordering.  (The `fflush` after
each `printf` is modelled by each callback appending its line to the trace
at the moment the event is dispatched.) -/
theorem c2_event_stream (inp : Input) (hc : inp.connectOk = true)
    (hs : seatAdv inp.globals = true) (hn : notifAdv inp.globals = true) :
    (stdoutLines (run inp).1).filter
        (fun s => s == "IDLE" || s == "RESUMED") =
      inp.events.map eventToken := by
  obtain ⟨sn, hseat⟩ := seat_some_of_adv inp.globals hs
  obtain ⟨nn, hnot⟩ := notif_some_of_adv inp.globals hn
  rw [stdout_run_success inp sn nn hc hseat hnot]
  have hfilter : (inp.events.map eventToken).filter
      (fun s => s == "IDLE" || s == "RESUMED") = inp.events.map eventToken := by
    refine List.filter_eq_self.mpr ?_
    intro a ha
    rcases List.mem_map.mp ha with ⟨e, _, rfl⟩
    cases e <;> decide
  rw [List.filter_cons, if_neg (by decide), hfilter]

/-- Witness for C2: three events produce exactly the three matching lines. -/
theorem c2_event_stream_witness :
    notifAdv [⟨"wl_seat", 1⟩, ⟨"ext_idle_notifier_v1", 2⟩] = true ∧
      (stdoutLines (run ⟨none, true,
          [⟨"wl_seat", 1⟩, ⟨"ext_idle_notifier_v1", 2⟩],
          [IdleEvent.idled, IdleEvent.resumed, IdleEvent.idled]⟩).1).filter
          (fun s => s == "IDLE" || s == "RESUMED") =
        [IdleEvent.idled, IdleEvent.resumed, IdleEvent.idled].map eventToken :=
  ⟨by decide, c2_event_stream ⟨none, true,
    [⟨"wl_seat", 1⟩, ⟨"ext_idle_notifier_v1", 2⟩],
    [IdleEvent.idled, IdleEvent.resumed, IdleEvent.idled]⟩ rfl (by decide)
    (by decide)⟩

/-! ## Claim C3: behaviour when the dispatch loop terminates -/

/-- Counterexample to C3 as stated: in a run that got past setup (`READY`
was emitted, so the dispatch loop was entered) and whose blocking wait then
reported failure, the process exits with status 0, not a nonzero status. -/
theorem c3_exit_nonzero_counterexample :
    (stdoutLines (run ⟨none, true, [⟨"wl_seat", 1⟩, ⟨"ext_idle_notifier_v1", 2⟩],
        [IdleEvent.idled]⟩).1).count "READY" = 1 ∧
      (run ⟨none, true, [⟨"wl_seat", 1⟩, ⟨"ext_idle_notifier_v1", 2⟩],
        [IdleEvent.idled]⟩).2 = 0 := by decide

/-- C3 (amended): whenever the dispatch loop terminates because the blocking
wait reports the connection is no longer usable, the process tears down its
protocol objects (the notification, then the notifier, then the display
connection, in that order at the very end of the trace) and exits with
status 0 — not, as originally claimed, a nonzero status. -/
theorem c3_dispatch_teardown_exit (inp : Input) (hc : inp.connectOk = true)
    (hs : seatAdv inp.globals = true) (hn : notifAdv inp.globals = true) :
    (∃ pre, (run inp).1 =
        pre ++ [Act.destroyNotif, Act.destroyNotifier, Act.disconnect])
      ∧ (run inp).2 = 0 := by
  obtain ⟨sn, hseat⟩ := seat_some_of_adv inp.globals hs
  obtain ⟨nn, hnot⟩ := notif_some_of_adv inp.globals hn
  constructor
  · refine ⟨(roundtrip inp.globals ⟨none, none⟩).2 ++
      Act.createNotif (effectiveTimeout inp.arg) sn ::
      Act.outLine "READY" :: dispatchActs inp.events, ?_⟩
    rw [run_success inp sn nn hc hseat hnot]
    simp [List.append_assoc]
  · rw [run_success inp sn nn hc hseat hnot]

/-- Witness for C3 (amended): a concrete successful run ends in the teardown
sequence and exits 0. -/
theorem c3_dispatch_teardown_exit_witness :
    seatAdv [⟨"wl_seat", 1⟩, ⟨"ext_idle_notifier_v1", 2⟩] = true ∧
      ((∃ pre, (run ⟨none, true, [⟨"wl_seat", 1⟩, ⟨"ext_idle_notifier_v1", 2⟩],
          []⟩).1 = pre ++ [Act.destroyNotif, Act.destroyNotifier, Act.disconnect])
        ∧ (run ⟨none, true, [⟨"wl_seat", 1⟩, ⟨"ext_idle_notifier_v1", 2⟩],
          []⟩).2 = 0) :=
  ⟨by decide, c3_dispatch_teardown_exit ⟨none, true,
    [⟨"wl_seat", 1⟩, ⟨"ext_idle_notifier_v1", 2⟩], []⟩ rfl (by decide)
    (by decide)⟩

/-! ## Trace-level path lemmas and counting helpers -/

lemma run_noconnect_fst (inp : Input) (hc : inp.connectOk = false) :
    (run inp).1 = [Act.errLine "ERROR: Cannot connect to Wayland display"] := by
  rw [run_noconnect inp hc]

lemma run_noseat_fst (inp : Input) (hc : inp.connectOk = true)
    (hs : (roundtrip inp.globals ⟨none, none⟩).1.seat = none) :
    (run inp).1 = (roundtrip inp.globals ⟨none, none⟩).2 ++
      [Act.errLine "ERROR: No wl_seat found", Act.disconnect] := by
  rw [run_noseat inp hc hs]

lemma run_nonotif_fst (inp : Input) (sn : Nat) (hc : inp.connectOk = true)
    (hs : (roundtrip inp.globals ⟨none, none⟩).1.seat = some sn)
    (hn : (roundtrip inp.globals ⟨none, none⟩).1.notifier = none) :
    (run inp).1 = (roundtrip inp.globals ⟨none, none⟩).2 ++
      [Act.errLine "ERROR: ext_idle_notifier_v1 not supported",
        Act.disconnect] := by
  rw [run_nonotif inp sn hc hs hn]

lemma run_success_fst (inp : Input) (sn nn : Nat) (hc : inp.connectOk = true)
    (hs : (roundtrip inp.globals ⟨none, none⟩).1.seat = some sn)
    (hn : (roundtrip inp.globals ⟨none, none⟩).1.notifier = some nn) :
    (run inp).1 = (roundtrip inp.globals ⟨none, none⟩).2 ++
      Act.createNotif (effectiveTimeout inp.arg) sn ::
      Act.outLine "READY" ::
      (dispatchActs inp.events ++
        [Act.destroyNotif, Act.destroyNotifier, Act.disconnect]) := by
  rw [run_success inp sn nn hc hs hn]

lemma seatAdv_of_some (gs : List Glob) (sn : Nat)
    (h : (roundtrip gs ⟨none, none⟩).1.seat = some sn) : seatAdv gs = true := by
  cases hb : seatAdv gs with
  | false =>
    have h2 := (seat_none_iff gs).mpr hb
    rw [h] at h2
    exact absurd h2 (by simp)
  | true => rfl

lemma notifAdv_of_some (gs : List Glob) (nn : Nat)
    (h : (roundtrip gs ⟨none, none⟩).1.notifier = some nn) :
    notifAdv gs = true := by
  cases hb : notifAdv gs with
  | false =>
    have h2 := (notifier_none_iff gs).mpr hb
    rw [h] at h2
    exact absurd h2 (by simp)
  | true => rfl

lemma countP_noseat (inp : Input) (hc : inp.connectOk = true)
    (hs : (roundtrip inp.globals ⟨none, none⟩).1.seat = none) (p : Act → Bool)
    (hb : ∀ a, isBind a = true → p a = false) :
    (run inp).1.countP p =
      [Act.errLine "ERROR: No wl_seat found", Act.disconnect].countP p := by
  rw [run_noseat_fst inp hc hs, List.countP_append, roundtrip_countP_zero p hb]
  simp

lemma countP_nonotif (inp : Input) (sn : Nat) (hc : inp.connectOk = true)
    (hs : (roundtrip inp.globals ⟨none, none⟩).1.seat = some sn)
    (hn : (roundtrip inp.globals ⟨none, none⟩).1.notifier = none) (p : Act → Bool)
    (hb : ∀ a, isBind a = true → p a = false) :
    (run inp).1.countP p =
      [Act.errLine "ERROR: ext_idle_notifier_v1 not supported",
        Act.disconnect].countP p := by
  rw [run_nonotif_fst inp sn hc hs hn, List.countP_append,
    roundtrip_countP_zero p hb]
  simp

lemma countP_success (inp : Input) (sn nn : Nat) (hc : inp.connectOk = true)
    (hs : (roundtrip inp.globals ⟨none, none⟩).1.seat = some sn)
    (hn : (roundtrip inp.globals ⟨none, none⟩).1.notifier = some nn)
    (p : Act → Bool) (hb : ∀ a, isBind a = true → p a = false)
    (ho : ∀ s, p (Act.outLine s) = false)
    (hcr : ∀ t s2, p (Act.createNotif t s2) = false) :
    (run inp).1.countP p =
      [Act.destroyNotif, Act.destroyNotifier, Act.disconnect].countP p := by
  rw [run_success_fst inp sn nn hc hs hn, List.countP_append,
    roundtrip_countP_zero p hb, List.countP_cons, List.countP_cons,
    List.countP_append, dispatch_countP_zero p ho]
  simp [hcr, ho]

/-! ## Claim C5: missing-capability failure -/

/-- C5: in every run in which a required capability (seat or idle-notifier)
is not advertised during discovery, the process emits exactly one `ERROR:`
line on stderr naming a missing capability (`wl_seat` when the seat is
missing; `ext_idle_notifier_v1` when the seat is present but the notifier is
missing), exits with status 1, never emits `READY` (stdout stays empty), and
the final action before exiting is the disconnect. -/
theorem c5_missing_capability (inp : Input) (hc : inp.connectOk = true)
    (hm : seatAdv inp.globals = false ∨ notifAdv inp.globals = false) :
    (stderrLines (run inp).1).length = 1
    ∧ (run inp).2 = 1
    ∧ stdoutLines (run inp).1 = []
    ∧ (run inp).1.getLast? = some Act.disconnect
    ∧ (seatAdv inp.globals = false →
        stderrLines (run inp).1 = ["ERROR: No " ++ "wl_seat" ++ " found"])
    ∧ (seatAdv inp.globals = true → notifAdv inp.globals = false →
        stderrLines (run inp).1 =
          ["ERROR: " ++ "ext_idle_notifier_v1" ++ " not supported"]) := by
  rcases hseat : (roundtrip inp.globals ⟨none, none⟩).1.seat with _ | sn
  · have hsf : seatAdv inp.globals = false := (seat_none_iff _).mp hseat
    have htr := run_noseat_fst inp hc hseat
    have herr : stderrLines (run inp).1 = ["ERROR: No wl_seat found"] := by
      rw [htr, stderrLines_append, stderr_roundtrip]
      rfl
    refine ⟨by rw [herr]; rfl, ?_, ?_, ?_, ?_, ?_⟩
    · rw [run_noseat inp hc hseat]
    · rw [htr, stdoutLines_append, stdout_roundtrip]
      rfl
    · rw [htr, show (roundtrip inp.globals ⟨none, none⟩).2 ++
        [Act.errLine "ERROR: No wl_seat found", Act.disconnect] =
        ((roundtrip inp.globals ⟨none, none⟩).2 ++
          [Act.errLine "ERROR: No wl_seat found"]) ++ [Act.disconnect]
        from by simp]
      exact List.getLast?_concat _
    · intro _
      rw [herr]
      rfl
    · intro hst _
      rw [hsf] at hst
      exact absurd hst (by simp)
  · rcases hnot : (roundtrip inp.globals ⟨none, none⟩).1.notifier with _ | nn
    · have hst := seatAdv_of_some inp.globals sn hseat
      have htr := run_nonotif_fst inp sn hc hseat hnot
      have herr : stderrLines (run inp).1 =
          ["ERROR: ext_idle_notifier_v1 not supported"] := by
        rw [htr, stderrLines_append, stderr_roundtrip]
        rfl
      refine ⟨by rw [herr]; rfl, ?_, ?_, ?_, ?_, ?_⟩
      · rw [run_nonotif inp sn hc hseat hnot]
      · rw [htr, stdoutLines_append, stdout_roundtrip]
        rfl
      · rw [htr, show (roundtrip inp.globals ⟨none, none⟩).2 ++
          [Act.errLine "ERROR: ext_idle_notifier_v1 not supported",
            Act.disconnect] =
          ((roundtrip inp.globals ⟨none, none⟩).2 ++
            [Act.errLine "ERROR: ext_idle_notifier_v1 not supported"]) ++
            [Act.disconnect] from by simp]
        exact List.getLast?_concat _
      · intro hsf2
        rw [hst] at hsf2
        exact absurd hsf2 (by simp)
      · intro _ _
        rw [herr]
        rfl
    · have hst := seatAdv_of_some inp.globals sn hseat
      have hnt := notifAdv_of_some inp.globals nn hnot
      rcases hm with hm | hm
      · rw [hst] at hm
        exact absurd hm (by simp)
      · rw [hnt] at hm
        exact absurd hm (by simp)

/-- Witness for C5: with no globals advertised at all, the run ends with a
disconnect and stdout stays empty (so `READY` is never printed). -/
theorem c5_missing_capability_witness :
    (run ⟨none, true, [], []⟩).1.getLast? = some Act.disconnect ∧
      stdoutLines (run ⟨none, true, [], []⟩).1 = [] ∧
      (run ⟨none, true, [], []⟩).2 = 1 :=
  ⟨(c5_missing_capability ⟨none, true, [], []⟩ rfl (Or.inl (by decide))).2.2.2.1,
   (c5_missing_capability ⟨none, true, [], []⟩ rfl (Or.inl (by decide))).2.2.1,
   (c5_missing_capability ⟨none, true, [], []⟩ rfl (Or.inl (by decide))).2.1⟩

/-! ## Claim C6: at most one seat bind, first wins -/

lemma no_bindSeat_of_some (gs : List Glob) (st : RegState) (m : Nat)
    (h : st.seat = some m) (n : Nat) :
    Act.bindSeat n ∉ (roundtrip gs st).2 := by
  intro hmem
  have h0 := roundtrip_countP_seat_some gs st m h
  exact (List.countP_eq_zero.mp h0 _ hmem) rfl

lemma bindSeat_mem_first (gs : List Glob) (st : RegState) (h : st.seat = none)
    (n : Nat) (hmem : Act.bindSeat n ∈ (roundtrip gs st).2) :
    ∃ g, gs.find? (fun g => g.iface == "wl_seat") = some g ∧ g.name = n := by
  induction gs generalizing st with
  | nil => simp [roundtrip] at hmem
  | cons g rest ih =>
    have h0 : (roundtrip (g :: rest) st).2 =
        (registry_global st g).2 ++ (roundtrip rest (registry_global st g).1).2 := by
      simp [roundtrip]
    rw [h0, List.mem_append] at hmem
    by_cases hg : g.iface = "wl_seat"
    · rw [List.find?_cons_of_pos _ (by simpa using hg)]
      have hs1 : (registry_global st g).1.seat = some g.name := by
        rw [registry_global_seat, if_pos ⟨hg, h⟩]
      rcases hmem with hmem | hmem
      · rw [registry_global_acts, if_pos ⟨hg, h⟩] at hmem
        simp only [List.mem_singleton, Act.bindSeat.injEq] at hmem
        exact ⟨g, rfl, hmem.symm⟩
      · exact absurd hmem (no_bindSeat_of_some rest _ g.name hs1 n)
    · have hs1 : (registry_global st g).1.seat = none := by
        rw [registry_global_seat, if_neg (by simp [hg]), h]
      rw [List.find?_cons_of_neg _ (by simpa using hg)]
      rcases hmem with hmem | hmem
      · rw [registry_global_acts, if_neg (by simp [hg])] at hmem
        by_cases h2 : g.iface = "ext_idle_notifier_v1"
        · rw [if_pos h2] at hmem
          simp at hmem
        · rw [if_neg h2] at hmem
          simp at hmem
      · exact ih _ hs1 hmem

/-- C6: during discovery at most one seat bind is ever performed — exactly
one when a `wl_seat` global is advertised, zero otherwise; the stored seat
handle is the first advertised `wl_seat` global, and any bind that occurs
binds precisely that first advertisement (later seat advertisements are
ignored). -/
theorem c6_seat_first_wins (gs : List Glob) :
    (roundtrip gs ⟨none, none⟩).2.countP isBindSeat =
        (if seatAdv gs then 1 else 0)
      ∧ (roundtrip gs ⟨none, none⟩).1.seat =
          (gs.find? (fun g => g.iface == "wl_seat")).map Glob.name
      ∧ (∀ n, Act.bindSeat n ∈ (roundtrip gs ⟨none, none⟩).2 →
          ∃ g, gs.find? (fun g => g.iface == "wl_seat") = some g ∧
            g.name = n) :=
  ⟨roundtrip_countP_seat_none gs _ rfl, roundtrip_seat_none gs _ rfl,
   fun n hmem => bindSeat_mem_first gs _ rfl n hmem⟩

/-- Witness for C6: with two advertised seats, the single bind is for the
first one (name 1). -/
theorem c6_seat_first_wins_witness :
    Act.bindSeat 1 ∈
        (roundtrip [⟨"wl_seat", 1⟩, ⟨"wl_seat", 2⟩] ⟨none, none⟩).2 ∧
      (∃ g, [(⟨"wl_seat", 1⟩ : Glob), ⟨"wl_seat", 2⟩].find?
          (fun g => g.iface == "wl_seat") = some g ∧ g.name = 1) :=
  ⟨by decide, (c6_seat_first_wins [⟨"wl_seat", 1⟩, ⟨"wl_seat", 2⟩]).2.2 1
    (by decide)⟩

/-! ## Claim C7: notifier binding -/

/-- Counterexample to C7 as stated: when the idle-notifier capability is
advertised twice, a bind is performed twice, not exactly once. -/
theorem c7_notifier_single_bind_counterexample :
    notifAdv [⟨"ext_idle_notifier_v1", 1⟩, ⟨"ext_idle_notifier_v1", 2⟩] = true ∧
      (roundtrip [⟨"ext_idle_notifier_v1", 1⟩, ⟨"ext_idle_notifier_v1", 2⟩]
          ⟨none, none⟩).2.countP isBindNotifier ≠ 1 := by decide

/-- C7 (amended): every idle-notifier advertisement triggers a bind (the
number of binds equals the number of such advertisements, so duplicates are
bound again rather than ignored); the stored handle is the one bound last;
a handle is held at the end of discovery iff the capability was advertised
at least once. -/
theorem c7_notifier_bind_per_advertisement (gs : List Glob) :
    (roundtrip gs ⟨none, none⟩).2.countP isBindNotifier =
        gs.countP (fun g => g.iface == "ext_idle_notifier_v1")
      ∧ (roundtrip gs ⟨none, none⟩).1.notifier = lastNotifFrom gs none
      ∧ (roundtrip gs ⟨none, none⟩).1.notifier.isSome = notifAdv gs := by
  refine ⟨roundtrip_countP_notifier gs _, roundtrip_notifier gs _, ?_⟩
  rw [roundtrip_notifier]
  simpa using lastNotifFrom_isSome gs none

/-! ## Claim C8: discovery completes before the subscription is created -/

/-- C8: in every run that reaches subscription, the trace decomposes as the
complete discovery output (all of it bind actions, produced by the roundtrip
barrier before it returns) followed by exactly one creation of the
notification object, parameterized by the configured timeout and the bound
seat; nothing after the creation is a bind or another creation. -/
theorem c8_discovery_before_subscribe (inp : Input) (hc : inp.connectOk = true)
    (hs : seatAdv inp.globals = true) (hn : notifAdv inp.globals = true) :
    ∃ pre post sn,
      (roundtrip inp.globals ⟨none, none⟩).1.seat = some sn
      ∧ (run inp).1 = pre ++ Act.createNotif (effectiveTimeout inp.arg) sn :: post
      ∧ pre = (roundtrip inp.globals ⟨none, none⟩).2
      ∧ (∀ a ∈ pre, isBind a = true)
      ∧ (∀ a ∈ post, isBind a = false ∧ isCreate a = false) := by
  obtain ⟨sn, hseat⟩ := seat_some_of_adv inp.globals hs
  obtain ⟨nn, hnot⟩ := notif_some_of_adv inp.globals hn
  refine ⟨(roundtrip inp.globals ⟨none, none⟩).2,
    Act.outLine "READY" :: (dispatchActs inp.events ++
      [Act.destroyNotif, Act.destroyNotifier, Act.disconnect]),
    sn, hseat, ?_, rfl, roundtrip_acts_bind _ _, ?_⟩
  · rw [run_success_fst inp sn nn hc hseat hnot]
  · intro a ha
    rcases List.mem_cons.mp ha with rfl | ha
    · exact ⟨rfl, rfl⟩
    rcases List.mem_append.mp ha with ha | ha
    · simp only [dispatchActs, List.mem_map] at ha
      obtain ⟨e, _, rfl⟩ := ha
      exact ⟨rfl, rfl⟩
    · simp only [List.mem_cons, List.mem_singleton] at ha
      rcases ha with rfl | rfl | rfl | ha
      · exact ⟨rfl, rfl⟩
      · exact ⟨rfl, rfl⟩
      · exact ⟨rfl, rfl⟩
      · simp at ha

/-- Witness for C8: a concrete run (timeout argument 2500, notifier
advertised before the seat, one event) decomposes as required. -/
theorem c8_discovery_before_subscribe_witness :
    seatAdv [⟨"ext_idle_notifier_v1", 5⟩, ⟨"wl_seat", 7⟩] = true ∧
      (∃ pre post sn,
        (roundtrip [(⟨"ext_idle_notifier_v1", 5⟩ : Glob), ⟨"wl_seat", 7⟩]
            ⟨none, none⟩).1.seat = some sn
        ∧ (run ⟨some ("2500".data), true,
            [⟨"ext_idle_notifier_v1", 5⟩, ⟨"wl_seat", 7⟩],
            [IdleEvent.idled]⟩).1 =
            pre ++ Act.createNotif (effectiveTimeout (some ("2500".data))) sn ::
              post
        ∧ pre = (roundtrip [(⟨"ext_idle_notifier_v1", 5⟩ : Glob),
            ⟨"wl_seat", 7⟩] ⟨none, none⟩).2
        ∧ (∀ a ∈ pre, isBind a = true)
        ∧ (∀ a ∈ post, isBind a = false ∧ isCreate a = false)) :=
  ⟨by decide, c8_discovery_before_subscribe ⟨some ("2500".data), true,
    [⟨"ext_idle_notifier_v1", 5⟩, ⟨"wl_seat", 7⟩], [IdleEvent.idled]⟩ rfl
    (by decide) (by decide)⟩

/-! ## Claim C9: teardown -/

/-- Counterexample to C9 as stated: in a successful run the seat capability
handle is bound but never destroyed — the connection is torn down without
all created dependent protocol objects having been destroyed first (the seat
handle is leaked to the disconnect). -/
theorem c9_teardown_counterexample :
    Act.bindSeat 1 ∈ (run ⟨none, true,
        [⟨"wl_seat", 1⟩, ⟨"ext_idle_notifier_v1", 2⟩], []⟩).1
      ∧ Act.destroySeat ∉ (run ⟨none, true,
        [⟨"wl_seat", 1⟩, ⟨"ext_idle_notifier_v1", 2⟩], []⟩).1
      ∧ Act.disconnect ∈ (run ⟨none, true,
        [⟨"wl_seat", 1⟩, ⟨"ext_idle_notifier_v1", 2⟩], []⟩).1 := by decide

/-- C9 (amended): on every exit path the connection teardown (disconnect)
happens exactly once when connect succeeded (never otherwise) and is the
final action; on the dispatch-failure path the subscription and the
IdleNotifier handle are each destroyed exactly once, immediately before the
disconnect; nothing is ever destroyed twice; but the Seat handle is never
explicitly destroyed (on the missing-capability paths, nor on the success
path) — it is released only implicitly by the disconnect. -/
theorem c9_teardown_once (inp : Input) :
    ((run inp).1.countP isDisconnect = if inp.connectOk = true then 1 else 0)
    ∧ (inp.connectOk = true → (run inp).1.getLast? = some Act.disconnect)
    ∧ (run inp).1.countP isDestroySeat = 0
    ∧ ((run inp).1.countP isDestroyNotif =
        if inp.connectOk = true ∧ seatAdv inp.globals = true ∧
            notifAdv inp.globals = true then 1 else 0)
    ∧ ((run inp).1.countP isDestroyNotifier =
        if inp.connectOk = true ∧ seatAdv inp.globals = true ∧
            notifAdv inp.globals = true then 1 else 0)
    ∧ (inp.connectOk = true → seatAdv inp.globals = true →
        notifAdv inp.globals = true →
        ∃ pre, (run inp).1 =
          pre ++ [Act.destroyNotif, Act.destroyNotifier, Act.disconnect]) := by
  cases hc : inp.connectOk with
  | false =>
    have h1 := run_noconnect_fst inp hc
    refine ⟨?_, ?_, ?_, ?_, ?_, ?_⟩
    · rw [h1]
      decide
    · intro hct
      exact absurd hct (by simp)
    · rw [h1]
      decide
    · rw [h1, if_neg (by simp)]
      decide
    · rw [h1, if_neg (by simp)]
      decide
    · intro hct
      exact absurd hct (by simp)
  | true =>
    rcases hseat : (roundtrip inp.globals ⟨none, none⟩).1.seat with _ | sn
    · have hsf : seatAdv inp.globals = false := (seat_none_iff _).mp hseat
      refine ⟨?_, ?_, ?_, ?_, ?_, ?_⟩
      · rw [countP_noseat inp hc hseat isDisconnect
          (fun a ha => (bind_not_misc a ha).2.2.2.1)]
        decide
      · intro _
        rw [run_noseat_fst inp hc hseat,
          show (roundtrip inp.globals ⟨none, none⟩).2 ++
            [Act.errLine "ERROR: No wl_seat found", Act.disconnect] =
            ((roundtrip inp.globals ⟨none, none⟩).2 ++
              [Act.errLine "ERROR: No wl_seat found"]) ++ [Act.disconnect]
            from by simp]
        exact List.getLast?_concat _
      · rw [countP_noseat inp hc hseat isDestroySeat
          (fun a ha => (bind_not_misc a ha).2.2.2.2.2.2)]
        decide
      · rw [countP_noseat inp hc hseat isDestroyNotif
          (fun a ha => (bind_not_misc a ha).2.2.2.2.1),
          if_neg (by simp [hsf])]
        decide
      · rw [countP_noseat inp hc hseat isDestroyNotifier
          (fun a ha => (bind_not_misc a ha).2.2.2.2.2.1),
          if_neg (by simp [hsf])]
        decide
      · intro _ hst2 _
        rw [hsf] at hst2
        exact absurd hst2 (by simp)
    · rcases hnot : (roundtrip inp.globals ⟨none, none⟩).1.notifier with _ | nn
      · have hnf : notifAdv inp.globals = false := (notifier_none_iff _).mp hnot
        refine ⟨?_, ?_, ?_, ?_, ?_, ?_⟩
        · rw [countP_nonotif inp sn hc hseat hnot isDisconnect
            (fun a ha => (bind_not_misc a ha).2.2.2.1)]
          decide
        · intro _
          rw [run_nonotif_fst inp sn hc hseat hnot,
            show (roundtrip inp.globals ⟨none, none⟩).2 ++
              [Act.errLine "ERROR: ext_idle_notifier_v1 not supported",
                Act.disconnect] =
              ((roundtrip inp.globals ⟨none, none⟩).2 ++
                [Act.errLine "ERROR: ext_idle_notifier_v1 not supported"]) ++
                [Act.disconnect] from by simp]
          exact List.getLast?_concat _
        · rw [countP_nonotif inp sn hc hseat hnot isDestroySeat
            (fun a ha => (bind_not_misc a ha).2.2.2.2.2.2)]
          decide
        · rw [countP_nonotif inp sn hc hseat hnot isDestroyNotif
            (fun a ha => (bind_not_misc a ha).2.2.2.2.1),
            if_neg (by simp [hnf])]
          decide
        · rw [countP_nonotif inp sn hc hseat hnot isDestroyNotifier
            (fun a ha => (bind_not_misc a ha).2.2.2.2.2.1),
            if_neg (by simp [hnf])]
          decide
        · intro _ _ hnt2
          rw [hnf] at hnt2
          exact absurd hnt2 (by simp)
      · have hst := seatAdv_of_some inp.globals sn hseat
        have hnt := notifAdv_of_some inp.globals nn hnot
        refine ⟨?_, ?_, ?_, ?_, ?_, ?_⟩
        · rw [countP_success inp sn nn hc hseat hnot isDisconnect
            (fun a ha => (bind_not_misc a ha).2.2.2.1) (fun s => rfl)
            (fun t s2 => rfl)]
          decide
        · intro _
          rw [run_success_fst inp sn nn hc hseat hnot,
            show (roundtrip inp.globals ⟨none, none⟩).2 ++
              Act.createNotif (effectiveTimeout inp.arg) sn ::
              Act.outLine "READY" ::
              (dispatchActs inp.events ++
                [Act.destroyNotif, Act.destroyNotifier, Act.disconnect]) =
              ((roundtrip inp.globals ⟨none, none⟩).2 ++
                Act.createNotif (effectiveTimeout inp.arg) sn ::
                Act.outLine "READY" ::
                (dispatchActs inp.events ++
                  [Act.destroyNotif, Act.destroyNotifier])) ++ [Act.disconnect]
              from by simp]
          exact List.getLast?_concat _
        · rw [countP_success inp sn nn hc hseat hnot isDestroySeat
            (fun a ha => (bind_not_misc a ha).2.2.2.2.2.2) (fun s => rfl)
            (fun t s2 => rfl)]
          decide
        · rw [countP_success inp sn nn hc hseat hnot isDestroyNotif
            (fun a ha => (bind_not_misc a ha).2.2.2.2.1) (fun s => rfl)
            (fun t s2 => rfl), hst, hnt]
          simp
          decide
        · rw [countP_success inp sn nn hc hseat hnot isDestroyNotifier
            (fun a ha => (bind_not_misc a ha).2.2.2.2.2.1) (fun s => rfl)
            (fun t s2 => rfl), hst, hnt]
          simp
          decide
        · intro _ _ _
          refine ⟨(roundtrip inp.globals ⟨none, none⟩).2 ++
            Act.createNotif (effectiveTimeout inp.arg) sn ::
            Act.outLine "READY" :: dispatchActs inp.events, ?_⟩
          rw [run_success_fst inp sn nn hc hseat hnot]
          simp [List.append_assoc]

/-- Witness for C9 (amended): a concrete successful run, with one idle
event. -/
theorem c9_teardown_once_witness :
    (run ⟨none, true, [⟨"wl_seat", 3⟩, ⟨"ext_idle_notifier_v1", 4⟩],
        [IdleEvent.idled]⟩).1.getLast? = some Act.disconnect ∧
      (∃ pre, (run ⟨none, true, [⟨"wl_seat", 3⟩, ⟨"ext_idle_notifier_v1", 4⟩],
          [IdleEvent.idled]⟩).1 =
        pre ++ [Act.destroyNotif, Act.destroyNotifier, Act.disconnect]) :=
  ⟨(c9_teardown_once ⟨none, true, [⟨"wl_seat", 3⟩, ⟨"ext_idle_notifier_v1", 4⟩],
      [IdleEvent.idled]⟩).2.1 rfl,
   (c9_teardown_once ⟨none, true, [⟨"wl_seat", 3⟩, ⟨"ext_idle_notifier_v1", 4⟩],
      [IdleEvent.idled]⟩).2.2.2.2.2 rfl (by decide) (by decide)⟩
